import Mathlib

/-
Shallow embedding of the canon-edsdk-ffi session/event core.

The embedding models the TypeScript classes CameraModule (the per-device
session, from src/unnamed/part_000, the fuller variant that also holds the
listener registry and the image-download pipeline) and EdsdkModule (the
session manager, from src/src/EdsdkModule.ts).  Native SDK calls are not
executed; instead every operation returns, besides its result and its
updated state, the ordered list of binding calls it performed.  An
environment value supplies the native result code of each call together
with the data the binding would have written through out-pointers.  A
thrown JavaScript Error is modelled as Except.error carrying the native
result code (or a listener identifier) that the Error message carries in
the source.
-/

/-- Result code returned by every native SDK call. -/
abbrev ResultCode := Nat

def EDS_ERR_OK : ResultCode := 0

def EDS_PROPERTY_EVENT_ALL : Nat := 0x100

def EDS_OBJECT_EVENT_ALL : Nat := 0x200

def EDS_STATE_EVENT_ALL : Nat := 0x300

def EDS_PROP_ID_SAVE_TO : Nat := 0xb

def EDS_SAVE_TO_HOST : Nat := 2

def EDS_CAMERA_COMMAND_PRESS_SHUTTER_BUTTON : Nat := 0x4

def EDS_CAMERA_COMMAND_SHUTTER_BUTTON_OFF : Nat := 0x0

def EDS_CAMERA_COMMAND_SHUTTER_BUTTON_COMPLETELY : Nat := 0x3

/-- Constant imported by part_000 from a constants module that is not among
the provided sources; the value is the standard SDK header value.  Only its
identity as a distinct property id matters for the development. -/
def EDS_PROP_ID_DRIVE_MODE : Nat := 0x401

/-- Constant imported by part_000 from a constants module that is not among
the provided sources; standard SDK header value. -/
def EDS_DRIVE_MODE_CONTINUOUS : Nat := 0x1

/-- Constant imported by part_000 from a constants module that is not among
the provided sources; standard SDK header value. -/
def EDS_FILE_CREATE_DISPOSITION_CREATE_ALWAYS : Nat := 2

/-- Constant imported by part_000 from a constants module that is not among
the provided sources; standard SDK header value. -/
def EDS_ACCESS_WRITE : Nat := 1

/-- One native-binding call, as recorded in an operation trace.  Handles
(camera refs, directory items, streams, the enumeration list) are modelled
as natural numbers.  The Bool on the three event-handler setters records
whether a handler was installed (true) or cleared with null (false). -/
inductive Call where
  | retain (ref : Nat)
  | release (ref : Nat)
  | setPropertyEventHandler (ref : Nat) (mask : Nat) (present : Bool)
  | setObjectEventHandler (ref : Nat) (mask : Nat) (present : Bool)
  | setStateEventHandler (ref : Nat) (mask : Nat) (present : Bool)
  | openSession (ref : Nat)
  | closeSession (ref : Nat)
  | setPropertyData (ref : Nat) (propId : Nat) (value : Nat)
  | setCapacity (ref : Nat)
  | sendCommand (ref : Nat) (cmd : Nat) (param : Nat)
  | getDirectoryItemInfo (item : Nat)
  | createFileStream (path : String)
  | download (item : Nat) (size : Nat) (stream : Nat)
  | downloadComplete (item : Nat)
  | getCameraList
  | getChildCount
  | getChildAtIndex (idx : Nat)
  | getDeviceInfo (idx : Nat)
  | startInterval
  | stopInterval
  | terminateSDK
deriving Repr, DecidableEq

/-- The EdsDirectoryItemInfo record returned through the out-pointer of
EdsGetDirectoryItemInfo (the three fields the pipeline reads). -/
structure ItemInfo where
  szFileName : String
  size : Nat
  dateTime : Nat
deriving Repr, DecidableEq

/-- Device descriptor assembled during enumeration: the EdsDeviceInfo
fields together with the child camera reference handle. -/
structure DeviceInfo where
  portName : String
  deviceDescription : String
  deviceSubType : Nat
  cameraRef : Nat
deriving Repr, DecidableEq

/-- The CameraInfo value exposed by the public API (portName is the key). -/
structure CameraInfo where
  portName : String
  deviceDescription : String
  deviceSubType : Nat
deriving Repr, DecidableEq

/-- The environment stands for the native side of the binding: the result
code each call reports, the data written through out-pointers (connected
device list, directory-item info, created stream handles), the temporary
directory used by the download pipeline, and, for the listener registry,
which listener functions throw when invoked (listeners are identified by
natural numbers standing for JavaScript function identities). -/
structure Env where
  code : Call → ResultCode
  devices : List DeviceInfo
  listRef : Nat
  itemInfo : Nat → ItemInfo
  streamOf : String → Nat
  tmpdir : String
  listenerThrows : Nat → Bool

/-- Per-device session state of one CameraModule instance: the wrapped
camera reference, the opened flag, the three registered-callback slots
(true when a koffi callback is currently registered in that slot) and the
new-image listener registry.  The JavaScript Set of listener functions is
modelled as a duplicate-free list in insertion order. -/
structure CameraState where
  cameraRef : Nat
  opened : Bool
  handleProperty : Bool
  handleObject : Bool
  handleState : Bool
  listeners : List Nat
deriving Repr, DecidableEq

/-- A freshly constructed CameraModule around a camera reference. -/
def CameraState.fresh (ref : Nat) : CameraState :=
  { cameraRef := ref, opened := false, handleProperty := false,
    handleObject := false, handleState := false, listeners := [] }

/-- CameraModule.open from part_000 (lines 58-180).  Steps in source
order: EdsRetain (result not checked); register and install the property,
object and state event handlers (installation results not checked);
EdsOpenSession, whose result is checked and thrown on failure; then
EdsSetPropertyData for save-to-host and for drive mode and EdsSetCapacity
(results not checked); finally the opened flag is set.  The trace records
every binding call made, in order. -/
def cameraOpen (env : Env) (s : CameraState) :
    Except ResultCode Unit × CameraState × List Call :=
  let r := s.cameraRef
  let _rRetain := env.code (Call.retain r)
  let s3 : CameraState :=
    { s with handleProperty := true, handleObject := true, handleState := true }
  let tPre : List Call :=
    [Call.retain r,
     Call.setPropertyEventHandler r EDS_PROPERTY_EVENT_ALL true,
     Call.setObjectEventHandler r EDS_OBJECT_EVENT_ALL true,
     Call.setStateEventHandler r EDS_STATE_EVENT_ALL true,
     Call.openSession r]
  let rOpen := env.code (Call.openSession r)
  if rOpen ≠ EDS_ERR_OK then
    (Except.error rOpen, s3, tPre)
  else
    let _rSaveTo := env.code (Call.setPropertyData r EDS_PROP_ID_SAVE_TO EDS_SAVE_TO_HOST)
    let _rDrive := env.code (Call.setPropertyData r EDS_PROP_ID_DRIVE_MODE EDS_DRIVE_MODE_CONTINUOUS)
    let _rCap := env.code (Call.setCapacity r)
    (Except.ok (),
     { s3 with opened := true },
     tPre ++
       [Call.setPropertyData r EDS_PROP_ID_SAVE_TO EDS_SAVE_TO_HOST,
        Call.setPropertyData r EDS_PROP_ID_DRIVE_MODE EDS_DRIVE_MODE_CONTINUOUS,
        Call.setCapacity r])

/-- CameraModule.close from part_000 (lines 182-230).  Returns immediately
when the opened flag is false; otherwise clears the three event handlers,
unregisters the koffi callbacks, closes the native session and releases
the camera reference, checking none of the result codes.  The final
assignment in the source sets the opened flag to true (line 229), not to
false, and the embedding reproduces that assignment as written. -/
def cameraClose (s : CameraState) : CameraState × List Call :=
  if !s.opened then (s, [])
  else
    let r := s.cameraRef
    ({ s with handleProperty := false, handleObject := false,
              handleState := false, opened := true },
     [Call.setPropertyEventHandler r EDS_PROPERTY_EVENT_ALL false,
      Call.setObjectEventHandler r EDS_OBJECT_EVENT_ALL false,
      Call.setStateEventHandler r EDS_STATE_EVENT_ALL false,
      Call.closeSession r,
      Call.release r])

/-- CameraModule.triggerCaptureAsync from part_000 (lines 235-255): sends
the press-shutter-completely command, waits a fixed 400 ms interval, and
sends the release-shutter command.  Neither send result is inspected and
the method cannot reject on a native failure; each command is sent exactly
once.  The settling wait has no observable effect in this model. -/
def triggerCapture (env : Env) (s : CameraState) :
    Except ResultCode Unit × List Call :=
  let c1 := Call.sendCommand s.cameraRef EDS_CAMERA_COMMAND_PRESS_SHUTTER_BUTTON
              EDS_CAMERA_COMMAND_SHUTTER_BUTTON_COMPLETELY
  let _r1 := env.code c1
  let c2 := Call.sendCommand s.cameraRef EDS_CAMERA_COMMAND_PRESS_SHUTTER_BUTTON
              EDS_CAMERA_COMMAND_SHUTTER_BUTTON_OFF
  let _r2 := env.code c2
  (Except.ok (), [c1, c2])

/-- CameraModule.addNewImageListener (part_000 lines 260-269): adds the
listener to the Set.  Set.add is a no-op when the function is already a
member, otherwise appends in insertion order. -/
def addNewImageListener (s : CameraState) (l : Nat) : CameraState :=
  { s with listeners := if l ∈ s.listeners then s.listeners else s.listeners ++ [l] }

/-- The unsubscribe capability returned by addNewImageListener: Set.delete
of that listener.  A JavaScript Set holds each function at most once, so
deleting the key removes every trace of it. -/
def removeNewImageListener (s : CameraState) (l : Nat) : CameraState :=
  { s with listeners := s.listeners.filter (fun x => x ≠ l) }

/-- A warning printed with console.warn inside the download pipeline. -/
inductive Warn where
  | downloadCompleteFailed (rc : ResultCode)
  | noListener
deriving Repr, DecidableEq

/-- An Error escaping the download pipeline: either a native call that
reported a non-success code and was thrown, or an exception raised by an
invoked listener (identified by the listener that threw). -/
inductive DlErr where
  | native (rc : ResultCode)
  | listenerFailure (l : Nat)
deriving Repr, DecidableEq

/-- Outcome of one run of the download pipeline: the returned or thrown
value, the binding calls made, the warnings printed, and the listeners
that were invoked, in invocation order. -/
structure DownloadOut where
  result : Except DlErr Bool
  calls : List Call
  warns : List Warn
  delivered : List Nat
deriving Repr

/-- The for-of loop over the listener Set (part_000 lines 337-339): each
listener is invoked in insertion order; the loop body has no exception
handler, so the first listener that throws ends the loop and its exception
escapes.  Returns the listeners actually invoked and the thrower if any. -/
def invokeListeners (throws : Nat → Bool) : List Nat → List Nat × Option Nat
  | [] => ([], none)
  | l :: rest =>
    if throws l then ([l], some l)
    else
      let p := invokeListeners throws rest
      (l :: p.1, p.2)

/-- CameraModule._handleImageDownload from part_000 (lines 274-348).
Steps in source order: EdsGetDirectoryItemInfo (thrown on failure); the
destination path joins the temporary directory with the reported filename;
EdsCreateFileStream (thrown on failure); EdsDownload (thrown on failure);
EdsDownloadComplete, whose failure is only warned about; EdsRelease of the
stream; then either the listener loop (when the Set is non-empty) or a
no-listener warning. -/
def handleImageDownload (env : Env) (s : CameraState) (item : Nat) : DownloadOut :=
  let cInfo := Call.getDirectoryItemInfo item
  let rInfo := env.code cInfo
  if rInfo ≠ EDS_ERR_OK then
    { result := Except.error (DlErr.native rInfo), calls := [cInfo],
      warns := [], delivered := [] }
  else
    let info := env.itemInfo item
    let filePath := env.tmpdir ++ "/" ++ info.szFileName
    let cCreate := Call.createFileStream filePath
    let rCreate := env.code cCreate
    if rCreate ≠ EDS_ERR_OK then
      { result := Except.error (DlErr.native rCreate), calls := [cInfo, cCreate],
        warns := [], delivered := [] }
    else
      let stream := env.streamOf filePath
      let cDl := Call.download item info.size stream
      let rDl := env.code cDl
      if rDl ≠ EDS_ERR_OK then
        { result := Except.error (DlErr.native rDl),
          calls := [cInfo, cCreate, cDl], warns := [], delivered := [] }
      else
        let cDc := Call.downloadComplete item
        let rDc := env.code cDc
        let warnsDc : List Warn :=
          if rDc ≠ EDS_ERR_OK then [Warn.downloadCompleteFailed rDc] else []
        let callsAll := [cInfo, cCreate, cDl, cDc, Call.release stream]
        if s.listeners.isEmpty then
          { result := Except.ok true, calls := callsAll,
            warns := warnsDc ++ [Warn.noListener], delivered := [] }
        else
          let p := invokeListeners env.listenerThrows s.listeners
          match p.2 with
          | some bad =>
            { result := Except.error (DlErr.listenerFailure bad),
              calls := callsAll, warns := warnsDc, delivered := p.1 }
          | none =>
            { result := Except.ok true, calls := callsAll,
              warns := warnsDc, delivered := p.1 }

/-- State of the EdsdkModule session manager: the open-camera Map keyed by
portName (modelled as an association list in insertion order with unique
keys, matching JavaScript Map iteration) and the event-loop interval
handle (modelled as the Boolean presence of a live interval). -/
structure EdsdkState where
  openCameras : List (String × CameraState)
  eventLoopRunning : Bool
deriving Repr, DecidableEq

/-- A freshly constructed EdsdkModule: empty Map, no interval. -/
def EdsdkState.init : EdsdkState :=
  { openCameras := [], eventLoopRunning := false }

/-- JavaScript Map.get on the association list: the entry with the
matching key, if any. -/
def mapGet (m : List (String × CameraState)) (k : String) : Option CameraState :=
  match m with
  | [] => none
  | p :: rest => if p.1 = k then some p.2 else mapGet rest k

/-- JavaScript Map.has. -/
def mapHas (m : List (String × CameraState)) (k : String) : Bool :=
  (mapGet m k).isSome

/-- JavaScript Map.set: replaces the entry with the matching key in place,
or appends a new entry. -/
def mapSet (m : List (String × CameraState)) (k : String) (v : CameraState) :
    List (String × CameraState) :=
  match m with
  | [] => [(k, v)]
  | p :: rest => if p.1 = k then (k, v) :: rest else p :: mapSet rest k v

/-- JavaScript Map.delete: removes the entry with the matching key. -/
def mapDelete (m : List (String × CameraState)) (k : String) :
    List (String × CameraState) :=
  match m with
  | [] => []
  | p :: rest => if p.1 = k then rest else p :: mapDelete rest k

/-- EdsdkModule._startEventLoop (lines 133-142): returns without doing
anything when an interval handle already exists, otherwise creates the
repeating interval.  The trace records only an actual interval creation. -/
def startEventLoop (st : EdsdkState) : EdsdkState × List Call :=
  if st.eventLoopRunning then (st, [])
  else ({ st with eventLoopRunning := true }, [Call.startInterval])

/-- EdsdkModule._stopEventLoop (lines 147-152): clears the interval when
one exists.  The trace records only an actual interval clearing. -/
def stopEventLoop (st : EdsdkState) : EdsdkState × List Call :=
  if st.eventLoopRunning then
    ({ st with eventLoopRunning := false }, [Call.stopInterval])
  else (st, [])

/-- The per-index body of the enumeration loop inside
EdsdkModule._listCamerasAsync (lines 187-219): EdsGetChildAtIndex and
EdsGetDeviceInfo for each index, each thrown on a non-success code; the
device data read through the out-pointers comes from the environment. -/
def enumerateFrom (env : Env) (idx : Nat) :
    List DeviceInfo → Except ResultCode (List DeviceInfo) × List Call
  | [] => (Except.ok [], [])
  | d :: rest =>
    let cChild := Call.getChildAtIndex idx
    let rChild := env.code cChild
    if rChild ≠ EDS_ERR_OK then (Except.error rChild, [cChild])
    else
      let cInfo := Call.getDeviceInfo idx
      let rInfo := env.code cInfo
      if rInfo ≠ EDS_ERR_OK then (Except.error rInfo, [cChild, cInfo])
      else
        match enumerateFrom env (idx + 1) rest with
        | (Except.ok ds, t) => (Except.ok (d :: ds), cChild :: cInfo :: t)
        | (Except.error e, t) => (Except.error e, cChild :: cInfo :: t)

/-- EdsdkModule._listCamerasAsync (lines 160-228): EdsGetCameraList and
EdsGetChildCount, each thrown on a non-success code, then the per-index
loop.  The list reference is released separately by the caller through the
returned closure, so no release appears here. -/
def listCameras (env : Env) :
    Except ResultCode (List DeviceInfo) × List Call :=
  let rList := env.code Call.getCameraList
  if rList ≠ EDS_ERR_OK then (Except.error rList, [Call.getCameraList])
  else
    let rCount := env.code Call.getChildCount
    if rCount ≠ EDS_ERR_OK then
      (Except.error rCount, [Call.getCameraList, Call.getChildCount])
    else
      match enumerateFrom env 0 env.devices with
      | (Except.ok ds, t) =>
        (Except.ok ds, Call.getCameraList :: Call.getChildCount :: t)
      | (Except.error e, t) =>
        (Except.error e, Call.getCameraList :: Call.getChildCount :: t)

/-- An Error thrown by EdsdkModule.openAsync: a native call that reported
a non-success code, or no connected camera matching the requested port. -/
inductive OpenErr where
  | native (rc : ResultCode)
  | notFound (portName : String)
deriving Repr, DecidableEq

/-- EdsdkModule.openAsync (lines 57-88).  Returns at once when the Map
already has the portName; otherwise enumerates, finds the device with the
matching portName (thrown when absent), runs the CameraModule open
sequence (its failure propagates), starts the event loop if not already
running, releases the enumeration list and stores the session in the Map.
On the not-found and open-failure paths the list release is never reached,
matching the source. -/
def openAsync (env : Env) (st : EdsdkState) (info : CameraInfo) :
    Except OpenErr Unit × EdsdkState × List Call :=
  if mapHas st.openCameras info.portName then (Except.ok (), st, [])
  else
    match listCameras env with
    | (Except.error e, t) => (Except.error (OpenErr.native e), st, t)
    | (Except.ok devices, t) =>
      match devices.find? (fun d => d.portName == info.portName) with
      | none => (Except.error (OpenErr.notFound info.portName), st, t)
      | some found =>
        match cameraOpen env (CameraState.fresh found.cameraRef) with
        | (Except.error rc, _, tOpen) =>
          (Except.error (OpenErr.native rc), st, t ++ tOpen)
        | (Except.ok _, cam, tOpen) =>
          let p := startEventLoop st
          (Except.ok (),
           { p.1 with openCameras := mapSet p.1.openCameras info.portName cam },
           t ++ tOpen ++ p.2 ++ [Call.release env.listRef])

/-- EdsdkModule.closeAsync (lines 93-113).  Returns false when the Map has
no session for the portName; otherwise runs the CameraModule close
sequence (which cannot throw), deletes the Map entry, stops the event loop
when the Map became empty, and returns true. -/
def closeAsync (st : EdsdkState) (info : CameraInfo) :
    Bool × EdsdkState × List Call :=
  match mapGet st.openCameras info.portName with
  | none => (false, st, [])
  | some cam =>
    let pc := cameraClose cam
    let m1 := mapDelete st.openCameras info.portName
    let st1 : EdsdkState := { st with openCameras := m1 }
    if m1.isEmpty then
      let ps := stopEventLoop st1
      (true, ps.1, pc.2 ++ ps.2)
    else (true, st1, pc.2)

/-- EdsdkModule.terminate (lines 22-33): runs the CameraModule close
sequence of every tracked session (Promise.all; the model serialises the
per-session traces in Map order, and no close can throw), clears the Map
and stops the event loop.  No global SDK teardown call appears in the
method. -/
def edsdkTerminate (st : EdsdkState) : EdsdkState × List Call :=
  let tCloses := (st.openCameras.map (fun p => (cameraClose p.2).2)).flatten
  let ps := stopEventLoop { st with openCameras := [] }
  (ps.1, tCloses ++ ps.2)

/-- The loader-level _terminate from src/src/index.ts (lines 316-319),
invoked by unloadEdsdk: stops the loader event loop and calls
EdsTerminateSDK.  It does not touch any session map. -/
def indexTerminate (st : EdsdkState) : EdsdkState × List Call :=
  let ps := stopEventLoop st
  (ps.1, ps.2 ++ [Call.terminateSDK])

/-- EdsdkModule.triggerCaptureAsync (lines 118-128): thrown when the Map
has no session for the portName, otherwise delegates to the CameraModule.
The state is not changed. -/
def triggerCaptureAsync (env : Env) (st : EdsdkState) (info : CameraInfo) :
    Except Unit (Except ResultCode Unit × List Call) :=
  match mapGet st.openCameras info.portName with
  | none => Except.error ()
  | some cam => Except.ok (triggerCapture env cam)

/-- The states of one EdsdkModule instance reachable from construction by
any sequence of public operations (listAsync and triggerCaptureAsync do
not change the state; openAsync, closeAsync and terminate do). -/
inductive Reachable : EdsdkState → Prop where
  | init : Reachable EdsdkState.init
  | openStep (env : Env) (info : CameraInfo) {st : EdsdkState} :
      Reachable st → Reachable (openAsync env st info).2.1
  | closeStep (info : CameraInfo) {st : EdsdkState} :
      Reachable st → Reachable (closeAsync st info).2.1
  | termStep {st : EdsdkState} :
      Reachable st → Reachable (edsdkTerminate st).1

/-- A connected demonstration device on port usb:001 with camera ref 3. -/
def dev0 : DeviceInfo :=
  { portName := "usb:001", deviceDescription := "Canon EOS R6",
    deviceSubType := 1, cameraRef := 3 }

/-- The public identity of dev0. -/
def info0 : CameraInfo :=
  { portName := "usb:001", deviceDescription := "Canon EOS R6", deviceSubType := 1 }

/-- An environment in which every native call succeeds. -/
def okEnv : Env :=
  { code := fun _ => EDS_ERR_OK, devices := [dev0], listRef := 9,
    itemInfo := fun _ => { szFileName := "IMG_0001.JPG", size := 12345, dateTime := 7 },
    streamOf := fun _ => 55, tmpdir := "/tmp", listenerThrows := fun _ => false }


/-- The session state after a successful open of camera ref 3. -/
def c1CamOpened : CameraState := (cameraOpen okEnv (CameraState.fresh 3)).2.1

/-- C1 (code_bug): the refcount of the wrapped handle must be decremented
exactly once when the session is released, and a second close() after
open(); close() must not release again.  In the code, close() ends by
setting the opened flag to true instead of false, so a second close()
repeats the whole teardown: across close(); close() the handle of camera
ref 3 is released twice, and the first close() leaves the opened flag
true. -/
theorem closeTwice_releases_twice :
    (cameraClose c1CamOpened).1.opened = true ∧
    ((cameraClose c1CamOpened).2 ++
        (cameraClose (cameraClose c1CamOpened).1).2).countP
      (fun c => c == Call.release 3) = 2 := by
  decide

/-- Environment in which installing the property event handler reports a
non-success code and every other call succeeds. -/
def env4 : Env :=
  { okEnv with
    code := fun c =>
      match c with
      | Call.setPropertyEventHandler _ _ true => 129
      | _ => EDS_ERR_OK }

/-- C4 (counterexample): in env4 the register-property-callback step
reports the non-success code 129, yet open() completes without error and
still performs the final steps (the capacity call is in its trace), so a
failing step does not abort the remaining steps. -/
theorem open_ignores_handler_failure :
    env4.code (Call.setPropertyEventHandler 3 EDS_PROPERTY_EVENT_ALL true) ≠ EDS_ERR_OK ∧
    (cameraOpen env4 (CameraState.fresh 3)).1 = Except.ok () ∧
    Call.setCapacity 3 ∈ (cameraOpen env4 (CameraState.fresh 3)).2.2 := by
  refine ⟨by decide, rfl, by decide⟩

/-- C4 (amended): in the open() sequence only the native session-open step
has its result code checked.  When that code is non-success, the remaining
steps are aborted and the error carrying that code propagates; for every
other step the result code is ignored, and open() succeeds whatever codes
those steps report. -/
theorem open_checks_only_openSession (env : Env) (s : CameraState) :
    (env.code (Call.openSession s.cameraRef) ≠ EDS_ERR_OK →
      cameraOpen env s =
        (Except.error (env.code (Call.openSession s.cameraRef)),
         { s with handleProperty := true, handleObject := true, handleState := true },
         [Call.retain s.cameraRef,
          Call.setPropertyEventHandler s.cameraRef EDS_PROPERTY_EVENT_ALL true,
          Call.setObjectEventHandler s.cameraRef EDS_OBJECT_EVENT_ALL true,
          Call.setStateEventHandler s.cameraRef EDS_STATE_EVENT_ALL true,
          Call.openSession s.cameraRef])) ∧
    (env.code (Call.openSession s.cameraRef) = EDS_ERR_OK →
      cameraOpen env s =
        (Except.ok (),
         { s with handleProperty := true, handleObject := true,
                  handleState := true, opened := true },
         [Call.retain s.cameraRef,
          Call.setPropertyEventHandler s.cameraRef EDS_PROPERTY_EVENT_ALL true,
          Call.setObjectEventHandler s.cameraRef EDS_OBJECT_EVENT_ALL true,
          Call.setStateEventHandler s.cameraRef EDS_STATE_EVENT_ALL true,
          Call.openSession s.cameraRef,
          Call.setPropertyData s.cameraRef EDS_PROP_ID_SAVE_TO EDS_SAVE_TO_HOST,
          Call.setPropertyData s.cameraRef EDS_PROP_ID_DRIVE_MODE EDS_DRIVE_MODE_CONTINUOUS,
          Call.setCapacity s.cameraRef])) := by
  constructor
  · intro h
    simp [cameraOpen, h]
  · intro h
    simp [cameraOpen, h]

/-- Witness for open_checks_only_openSession at the all-success
environment and a fresh camera on ref 3. -/
theorem open_checks_only_openSession_witness :
    cameraOpen okEnv (CameraState.fresh 3) =
      (Except.ok (),
       { CameraState.fresh 3 with handleProperty := true, handleObject := true,
                                  handleState := true, opened := true },
       [Call.retain 3,
        Call.setPropertyEventHandler 3 EDS_PROPERTY_EVENT_ALL true,
        Call.setObjectEventHandler 3 EDS_OBJECT_EVENT_ALL true,
        Call.setStateEventHandler 3 EDS_STATE_EVENT_ALL true,
        Call.openSession 3,
        Call.setPropertyData 3 EDS_PROP_ID_SAVE_TO EDS_SAVE_TO_HOST,
        Call.setPropertyData 3 EDS_PROP_ID_DRIVE_MODE EDS_DRIVE_MODE_CONTINUOUS,
        Call.setCapacity 3]) :=
  (open_checks_only_openSession okEnv (CameraState.fresh 3)).2 rfl

/-- Environment in which every command send reports the non-success code
36 and every other call succeeds. -/
def env5 : Env :=
  { okEnv with
    code := fun c =>
      match c with
      | Call.sendCommand _ _ _ => 36
      | _ => EDS_ERR_OK }

/-- C5 (counterexample): in env5 the press-shutter send reports the
non-success code 36, yet triggerCapture completes without any error: a
failing command send is not surfaced to the caller. -/
theorem triggerCapture_swallows_send_failure :
    env5.code (Call.sendCommand 3 EDS_CAMERA_COMMAND_PRESS_SHUTTER_BUTTON
        EDS_CAMERA_COMMAND_SHUTTER_BUTTON_COMPLETELY) ≠ EDS_ERR_OK ∧
    (triggerCapture env5 (CameraState.fresh 3)).1 = Except.ok () := by
  refine ⟨by decide, rfl⟩

/-- C5 (amended): triggerCapture sends the press-shutter-completely
command and then the release-shutter command, each exactly once with no
retry, and returns without error for every environment: the result codes
of the sends are ignored, so a non-success code is never surfaced. -/
theorem triggerCapture_sends_each_once_no_error (env : Env) (s : CameraState) :
    triggerCapture env s =
      (Except.ok (),
       [Call.sendCommand s.cameraRef EDS_CAMERA_COMMAND_PRESS_SHUTTER_BUTTON
          EDS_CAMERA_COMMAND_SHUTTER_BUTTON_COMPLETELY,
        Call.sendCommand s.cameraRef EDS_CAMERA_COMMAND_PRESS_SHUTTER_BUTTON
          EDS_CAMERA_COMMAND_SHUTTER_BUTTON_OFF]) := rfl

/-- Destination path computed by the download pipeline for an item. -/
def dlPath (env : Env) (item : Nat) : String :=
  env.tmpdir ++ "/" ++ (env.itemInfo item).szFileName

/-- Stream handle the binding returns for the destination path. -/
def dlStream (env : Env) (item : Nat) : Nat :=
  env.streamOf (dlPath env item)

/-- The full binding-call trace of a download whose fallible native steps
all succeed. -/
def dlCalls (env : Env) (item : Nat) : List Call :=
  [Call.getDirectoryItemInfo item,
   Call.createFileStream (dlPath env item),
   Call.download item (env.itemInfo item).size (dlStream env item),
   Call.downloadComplete item,
   Call.release (dlStream env item)]

theorem invokeListeners_all_ok (throws : Nat → Bool) (ls : List Nat)
    (h : ∀ l ∈ ls, throws l = false) :
    invokeListeners throws ls = (ls, none) := by
  induction ls with
  | nil => rfl
  | cons a rest ih =>
    have ha : throws a = false := h a (by simp)
    have hr : ∀ l ∈ rest, throws l = false := fun l hl => h l (by simp [hl])
    simp [invokeListeners, ha, ih hr]

theorem invokeListeners_first_throw (throws : Nat → Bool) (pre : List Nat)
    (bad : Nat) (rest : List Nat)
    (hpre : ∀ l ∈ pre, throws l = false) (hbad : throws bad = true) :
    invokeListeners throws (pre ++ bad :: rest) = (pre ++ [bad], some bad) := by
  induction pre with
  | nil => simp [invokeListeners, hbad]
  | cons a p ih =>
    have ha : throws a = false := hpre a (by simp)
    have hp : ∀ l ∈ p, throws l = false := fun l hl => hpre l (by simp [hl])
    simp [invokeListeners, ha, ih hp]

theorem handleImageDownload_ok_shape (env : Env) (s : CameraState) (item : Nat)
    (h1 : env.code (Call.getDirectoryItemInfo item) = EDS_ERR_OK)
    (h2 : env.code (Call.createFileStream (dlPath env item)) = EDS_ERR_OK)
    (h3 : env.code (Call.download item (env.itemInfo item).size (dlStream env item)) = EDS_ERR_OK) :
    handleImageDownload env s item =
      { result :=
          if s.listeners.isEmpty then Except.ok true
          else
            match (invokeListeners env.listenerThrows s.listeners).2 with
            | some bad => Except.error (DlErr.listenerFailure bad)
            | none => Except.ok true,
        calls := dlCalls env item,
        warns :=
          (if env.code (Call.downloadComplete item) ≠ EDS_ERR_OK
           then [Warn.downloadCompleteFailed (env.code (Call.downloadComplete item))]
           else []) ++
          (if s.listeners.isEmpty then [Warn.noListener] else []),
        delivered :=
          if s.listeners.isEmpty then []
          else (invokeListeners env.listenerThrows s.listeners).1 } := by
  simp only [dlPath, dlStream] at h2 h3
  simp only [handleImageDownload, dlPath, dlStream, dlCalls, h1, h2, h3, ne_eq,
    not_true_eq_false, if_false, ite_false, not_false_eq_true, ite_true]
  by_cases he : s.listeners.isEmpty
  · simp [he]
  · simp only [he, if_false, ite_false, Bool.false_eq_true]
    rcases hp : (invokeListeners env.listenerThrows s.listeners).2 with _ | bad
    · simp [hp]
    · simp [hp]

/-- Environment in which the byte-transfer download step reports the
non-success code 77 and every other call succeeds. -/
def env6 : Env :=
  { okEnv with
    code := fun c =>
      match c with
      | Call.download _ _ _ => 77
      | _ => EDS_ERR_OK }

/-- A session with one subscribed listener (listener 4). -/
def cam6 : CameraState := { CameraState.fresh 3 with listeners := [4] }

/-- C6 (counterexample): in env6 the download step itself fails after the
stream was created.  The download has been attempted (the download call is
the last entry of the trace), yet the pipeline throws before the stream
release: no release of the stream handle 55 occurs, so the release is not
unconditional once the download has been attempted. -/
theorem failed_download_leaks_stream :
    env6.code (Call.download 21 12345 55) ≠ EDS_ERR_OK ∧
    (handleImageDownload env6 cam6 21).calls =
      [Call.getDirectoryItemInfo 21,
       Call.createFileStream "/tmp/IMG_0001.JPG",
       Call.download 21 12345 55] ∧
    Call.release 55 ∉ (handleImageDownload env6 cam6 21).calls ∧
    (handleImageDownload env6 cam6 21).result = Except.error (DlErr.native 77) := by
  refine ⟨by decide, rfl, by decide, rfl⟩

/-- C6 (amended): when the metadata, stream-creation and download steps
all succeed, a non-success code from the download-complete acknowledgment
is only warned about and never aborts the pipeline, and the stream is
released regardless of that code; but a download step that itself fails
throws before the release, so the release is conditional on the download
step succeeding. -/
theorem download_release_after_successful_download (env : Env) (s : CameraState) (item : Nat)
    (h1 : env.code (Call.getDirectoryItemInfo item) = EDS_ERR_OK)
    (h2 : env.code (Call.createFileStream (dlPath env item)) = EDS_ERR_OK)
    (h3 : env.code (Call.download item (env.itemInfo item).size (dlStream env item)) = EDS_ERR_OK) :
    Call.release (dlStream env item) ∈ (handleImageDownload env s item).calls ∧
    Call.downloadComplete item ∈ (handleImageDownload env s item).calls ∧
    (env.code (Call.downloadComplete item) ≠ EDS_ERR_OK →
      Warn.downloadCompleteFailed (env.code (Call.downloadComplete item)) ∈
        (handleImageDownload env s item).warns) ∧
    (∀ rc, (handleImageDownload env s item).result ≠ Except.error (DlErr.native rc)) := by
  rw [handleImageDownload_ok_shape env s item h1 h2 h3]
  refine ⟨by simp [dlCalls], by simp [dlCalls], ?_, ?_⟩
  · intro hdc
    simp [hdc]
  · intro rc
    by_cases he : s.listeners.isEmpty
    · simp [he]
    · simp only [he, ite_false, Bool.false_eq_true, if_false]
      rcases hp : (invokeListeners env.listenerThrows s.listeners).2 with _ | bad <;> simp

/-- Environment in which only the download-complete acknowledgment fails
(with code 50). -/
def envDc : Env :=
  { okEnv with
    code := fun c =>
      match c with
      | Call.downloadComplete _ => 50
      | _ => EDS_ERR_OK }

/-- Witness for download_release_after_successful_download at envDc, a
listener-free session and item 21: the acknowledgment fails with code 50,
is only warned about, and the stream is still released. -/
theorem download_release_after_successful_download_witness :
    Call.release (dlStream envDc 21) ∈ (handleImageDownload envDc (CameraState.fresh 3) 21).calls ∧
    Call.downloadComplete 21 ∈ (handleImageDownload envDc (CameraState.fresh 3) 21).calls ∧
    (envDc.code (Call.downloadComplete 21) ≠ EDS_ERR_OK →
      Warn.downloadCompleteFailed (envDc.code (Call.downloadComplete 21)) ∈
        (handleImageDownload envDc (CameraState.fresh 3) 21).warns) ∧
    (∀ rc, (handleImageDownload envDc (CameraState.fresh 3) 21).result ≠
      Except.error (DlErr.native rc)) :=
  download_release_after_successful_download envDc (CameraState.fresh 3) 21 rfl rfl rfl

/-- C7: processing a transfer-requested event with zero subscribers still
writes the file (the download call is performed), still performs the
download-complete acknowledgment and the stream release, delivers nothing
to any listener, records the no-listener warning, and returns success
rather than raising an error. -/
theorem download_no_listener_branch (env : Env) (s : CameraState) (item : Nat)
    (hEmpty : s.listeners = [])
    (h1 : env.code (Call.getDirectoryItemInfo item) = EDS_ERR_OK)
    (h2 : env.code (Call.createFileStream (dlPath env item)) = EDS_ERR_OK)
    (h3 : env.code (Call.download item (env.itemInfo item).size (dlStream env item)) = EDS_ERR_OK) :
    (handleImageDownload env s item).result = Except.ok true ∧
    (handleImageDownload env s item).delivered = [] ∧
    Warn.noListener ∈ (handleImageDownload env s item).warns ∧
    Call.download item (env.itemInfo item).size (dlStream env item) ∈
      (handleImageDownload env s item).calls ∧
    Call.downloadComplete item ∈ (handleImageDownload env s item).calls ∧
    Call.release (dlStream env item) ∈ (handleImageDownload env s item).calls := by
  rw [handleImageDownload_ok_shape env s item h1 h2 h3]
  simp [hEmpty, dlCalls]

/-- Witness for download_no_listener_branch at the all-success
environment, a listener-free session and item 21. -/
theorem download_no_listener_branch_witness :
    (handleImageDownload okEnv (CameraState.fresh 3) 21).result = Except.ok true ∧
    (handleImageDownload okEnv (CameraState.fresh 3) 21).delivered = [] ∧
    Warn.noListener ∈ (handleImageDownload okEnv (CameraState.fresh 3) 21).warns ∧
    Call.download 21 (okEnv.itemInfo 21).size (dlStream okEnv 21) ∈
      (handleImageDownload okEnv (CameraState.fresh 3) 21).calls ∧
    Call.downloadComplete 21 ∈ (handleImageDownload okEnv (CameraState.fresh 3) 21).calls ∧
    Call.release (dlStream okEnv 21) ∈ (handleImageDownload okEnv (CameraState.fresh 3) 21).calls :=
  download_no_listener_branch okEnv (CameraState.fresh 3) 21 rfl rfl rfl rfl

/-- Environment in which listener 0 throws when invoked and every native
call succeeds. -/
def env8 : Env := { okEnv with listenerThrows := fun l => l == 0 }

/-- A session with two subscribed listeners, 0 then 1. -/
def cam8 : CameraState := { CameraState.fresh 3 with listeners := [0, 1] }

/-- C8 (counterexample): with listeners 0 and 1 subscribed and listener 0
throwing, listener 1 never receives the image and the listener exception
escapes the pipeline: one listener throwing does prevent delivery to the
others. -/
theorem throwing_listener_blocks_rest :
    env8.listenerThrows 0 = true ∧
    (1 : Nat) ∈ cam8.listeners ∧
    (1 : Nat) ∉ (handleImageDownload env8 cam8 21).delivered ∧
    (handleImageDownload env8 cam8 21).result =
      Except.error (DlErr.listenerFailure 0) := by
  refine ⟨rfl, by decide, by decide, rfl⟩

/-- C8 (amended): after a fully successful download, the pipeline invokes
the currently subscribed listeners synchronously in subscription order,
but failures are not isolated: when no listener throws every listener
receives the image, and when some listener throws, delivery stops with
that listener, the later listeners receive nothing, and the exception
escapes the pipeline. -/
theorem publish_in_order_until_first_throw :
    (∀ (env : Env) (s : CameraState) (item : Nat),
      env.code (Call.getDirectoryItemInfo item) = EDS_ERR_OK →
      env.code (Call.createFileStream (dlPath env item)) = EDS_ERR_OK →
      env.code (Call.download item (env.itemInfo item).size (dlStream env item)) = EDS_ERR_OK →
      (∀ l ∈ s.listeners, env.listenerThrows l = false) →
      (handleImageDownload env s item).delivered = s.listeners) ∧
    (∀ (env : Env) (s : CameraState) (item : Nat) (pre : List Nat) (bad : Nat) (rest : List Nat),
      env.code (Call.getDirectoryItemInfo item) = EDS_ERR_OK →
      env.code (Call.createFileStream (dlPath env item)) = EDS_ERR_OK →
      env.code (Call.download item (env.itemInfo item).size (dlStream env item)) = EDS_ERR_OK →
      s.listeners = pre ++ bad :: rest →
      (∀ l ∈ pre, env.listenerThrows l = false) →
      env.listenerThrows bad = true →
      (handleImageDownload env s item).delivered = pre ++ [bad] ∧
      (handleImageDownload env s item).result =
        Except.error (DlErr.listenerFailure bad)) := by
  constructor
  · intro env s item h1 h2 h3 hok
    rw [handleImageDownload_ok_shape env s item h1 h2 h3]
    by_cases he : s.listeners.isEmpty
    · have hnil : s.listeners = [] := List.isEmpty_iff.mp he
      simp [hnil]
    · simp only [he, ite_false, Bool.false_eq_true, if_false]
      rw [invokeListeners_all_ok env.listenerThrows s.listeners hok]
  · intro env s item pre bad rest h1 h2 h3 hl hpre hbad
    rw [handleImageDownload_ok_shape env s item h1 h2 h3]
    have he : s.listeners.isEmpty = false := by
      rw [hl]
      simp
    simp only [he, ite_false, Bool.false_eq_true, if_false]
    rw [hl, invokeListeners_first_throw env.listenerThrows pre bad rest hpre hbad]
    exact ⟨rfl, rfl⟩

/-- Witness for publish_in_order_until_first_throw: the no-throw part at
the all-success environment with listener 4 subscribed, and the throwing
part at env8 with listeners 0 and 1 subscribed. -/
theorem publish_in_order_until_first_throw_witness :
    ((handleImageDownload okEnv cam6 21).delivered = cam6.listeners) ∧
    ((handleImageDownload env8 cam8 21).delivered = [] ++ [0] ∧
     (handleImageDownload env8 cam8 21).result =
       Except.error (DlErr.listenerFailure 0)) :=
  ⟨publish_in_order_until_first_throw.1 okEnv cam6 21 rfl rfl rfl
      (by intro l hl; rfl),
   publish_in_order_until_first_throw.2 env8 cam8 21 [] 0 [1] rfl rfl rfl rfl
      (by intro l hl; simp at hl) rfl⟩

theorem mem_addNewImageListener (s : CameraState) (l : Nat) :
    l ∈ (addNewImageListener s l).listeners := by
  by_cases h : l ∈ s.listeners <;> simp [addNewImageListener, h]

/-- C10: the listener registry is a Set keyed by function identity.
Subscribing the same listener twice registers it once (the second add is a
no-op on the state), a publish with no throwing listeners then delivers
the image to it exactly once, and one invocation of the returned
unsubscribe capability removes it entirely from the registry. -/
theorem listener_registry_set_semantics (s : CameraState) (l : Nat)
    (hnd : s.listeners.Nodup) :
    addNewImageListener (addNewImageListener s l) l = addNewImageListener s l ∧
    (addNewImageListener (addNewImageListener s l) l).listeners.count l = 1 ∧
    (invokeListeners (fun _ => false)
        (addNewImageListener (addNewImageListener s l) l).listeners).1.count l = 1 ∧
    l ∉ (removeNewImageListener (addNewImageListener (addNewImageListener s l) l) l).listeners := by
  have hdouble :
      addNewImageListener (addNewImageListener s l) l = addNewImageListener s l := by
    by_cases h : l ∈ s.listeners <;> simp [addNewImageListener, h]
  have hcount : (addNewImageListener s l).listeners.count l = 1 := by
    by_cases h : l ∈ s.listeners
    · simp only [addNewImageListener, h, ite_true]
      exact List.count_eq_one_of_mem hnd h
    · simp only [addNewImageListener, h, ite_false]
      simp [List.count_append, List.count_eq_zero_of_not_mem h]
  refine ⟨hdouble, ?_, ?_, ?_⟩
  · rw [hdouble]
    exact hcount
  · rw [hdouble, invokeListeners_all_ok (fun _ => false)
      (addNewImageListener s l).listeners (by intro a ha; rfl)]
    exact hcount
  · rw [hdouble]
    simp [removeNewImageListener, List.mem_filter]

/-- Witness for listener_registry_set_semantics at a fresh session and
listener 5. -/
theorem listener_registry_set_semantics_witness :
    List.Nodup (CameraState.fresh 3).listeners ∧
    (addNewImageListener (addNewImageListener (CameraState.fresh 3) 5) 5 =
        addNewImageListener (CameraState.fresh 3) 5 ∧
     (addNewImageListener (addNewImageListener (CameraState.fresh 3) 5) 5).listeners.count 5 = 1 ∧
     (invokeListeners (fun _ => false)
         (addNewImageListener (addNewImageListener (CameraState.fresh 3) 5) 5).listeners).1.count 5 = 1 ∧
     5 ∉ (removeNewImageListener
            (addNewImageListener (addNewImageListener (CameraState.fresh 3) 5) 5) 5).listeners) :=
  ⟨by decide, listener_registry_set_semantics (CameraState.fresh 3) 5 (by decide)⟩

theorem mapGet_mapSet_self (m : List (String × CameraState)) (k : String) (v : CameraState) :
    mapGet (mapSet m k v) k = some v := by
  induction m with
  | nil => simp [mapSet, mapGet]
  | cons p rest ih =>
    by_cases h : p.1 = k
    · simp [mapSet, mapGet, h]
    · simp [mapSet, mapGet, h, ih]

theorem mapSet_ne_nil (m : List (String × CameraState)) (k : String) (v : CameraState) :
    mapSet m k v ≠ [] := by
  cases m with
  | nil => simp [mapSet]
  | cons p rest => by_cases h : p.1 = k <;> simp [mapSet, h]

theorem mapGet_ne_nil {m : List (String × CameraState)} {k : String} {c : CameraState}
    (h : mapGet m k = some c) : m ≠ [] := by
  intro hm
  rw [hm] at h
  simp [mapGet] at h

theorem startEventLoop_running (st : EdsdkState) :
    (startEventLoop st).1.eventLoopRunning = true := by
  by_cases h : st.eventLoopRunning <;> simp [startEventLoop, h]

theorem startEventLoop_cameras (st : EdsdkState) :
    (startEventLoop st).1.openCameras = st.openCameras := by
  by_cases h : st.eventLoopRunning <;> simp [startEventLoop, h]

theorem stopEventLoop_running (st : EdsdkState) :
    (stopEventLoop st).1.eventLoopRunning = false := by
  by_cases h : st.eventLoopRunning <;> simp [stopEventLoop, h]

theorem stopEventLoop_cameras (st : EdsdkState) :
    (stopEventLoop st).1.openCameras = st.openCameras := by
  by_cases h : st.eventLoopRunning <;> simp [stopEventLoop, h]

theorem cameraOpen_err_shape (env : Env) (s : CameraState)
    (h : env.code (Call.openSession s.cameraRef) ≠ EDS_ERR_OK) :
    cameraOpen env s =
      (Except.error (env.code (Call.openSession s.cameraRef)),
       { s with handleProperty := true, handleObject := true, handleState := true },
       [Call.retain s.cameraRef,
        Call.setPropertyEventHandler s.cameraRef EDS_PROPERTY_EVENT_ALL true,
        Call.setObjectEventHandler s.cameraRef EDS_OBJECT_EVENT_ALL true,
        Call.setStateEventHandler s.cameraRef EDS_STATE_EVENT_ALL true,
        Call.openSession s.cameraRef]) := by
  simp [cameraOpen, h]

theorem cameraOpen_ok_shape (env : Env) (s : CameraState)
    (h : env.code (Call.openSession s.cameraRef) = EDS_ERR_OK) :
    cameraOpen env s =
      (Except.ok (),
       { s with handleProperty := true, handleObject := true,
                handleState := true, opened := true },
       [Call.retain s.cameraRef,
        Call.setPropertyEventHandler s.cameraRef EDS_PROPERTY_EVENT_ALL true,
        Call.setObjectEventHandler s.cameraRef EDS_OBJECT_EVENT_ALL true,
        Call.setStateEventHandler s.cameraRef EDS_STATE_EVENT_ALL true,
        Call.openSession s.cameraRef,
        Call.setPropertyData s.cameraRef EDS_PROP_ID_SAVE_TO EDS_SAVE_TO_HOST,
        Call.setPropertyData s.cameraRef EDS_PROP_ID_DRIVE_MODE EDS_DRIVE_MODE_CONTINUOUS,
        Call.setCapacity s.cameraRef]) := by
  simp [cameraOpen, h]

theorem enumerateFrom_countP (env : Env) (p : Call → Bool)
    (hChild : ∀ i, p (Call.getChildAtIndex i) = false)
    (hInfo : ∀ i, p (Call.getDeviceInfo i) = false) :
    ∀ (ds : List DeviceInfo) (idx : Nat), ((enumerateFrom env idx ds).2.countP p) = 0 := by
  intro ds
  induction ds with
  | nil => intro idx; simp [enumerateFrom]
  | cons d rest ih =>
    intro idx
    by_cases h1 : env.code (Call.getChildAtIndex idx) = EDS_ERR_OK
    · by_cases h2 : env.code (Call.getDeviceInfo idx) = EDS_ERR_OK
      · rcases hrec : enumerateFrom env (idx + 1) rest with ⟨res, t⟩
        have ht : t.countP p = 0 := by
          have := ih (idx + 1)
          rw [hrec] at this
          exact this
        cases res <;>
          simp [enumerateFrom, h1, h2, hrec, List.countP_cons, hChild, hInfo, ht]
      · simp [enumerateFrom, h1, h2, List.countP_cons, hChild, hInfo]
    · simp [enumerateFrom, h1, List.countP_cons, hChild]

theorem listCameras_countP (env : Env) (p : Call → Bool)
    (hList : p Call.getCameraList = false)
    (hCount : p Call.getChildCount = false)
    (hChild : ∀ i, p (Call.getChildAtIndex i) = false)
    (hInfo : ∀ i, p (Call.getDeviceInfo i) = false) :
    (listCameras env).2.countP p = 0 := by
  have he := enumerateFrom_countP env p hChild hInfo env.devices 0
  by_cases h1 : env.code Call.getCameraList = EDS_ERR_OK
  · by_cases h2 : env.code Call.getChildCount = EDS_ERR_OK
    · rcases hrec : enumerateFrom env 0 env.devices with ⟨res, t⟩
      rw [hrec] at he
      cases res <;>
        simp [listCameras, h1, h2, hrec, List.countP_cons, hList, hCount, he]
    · simp [listCameras, h1, h2, List.countP_cons, hList, hCount]
  · simp [listCameras, h1, List.countP_cons, hList]

theorem openAsync_tracked (env : Env) (st : EdsdkState) (info : CameraInfo)
    (h : mapHas st.openCameras info.portName = true) :
    openAsync env st info = (Except.ok (), st, []) := by
  simp [openAsync, h]

theorem openAsync_ok_decomp (env : Env) (st : EdsdkState) (info : CameraInfo)
    (hb : mapHas st.openCameras info.portName = false)
    (hok : (openAsync env st info).1 = Except.ok ()) :
    ∃ ds tL found cam tO,
      listCameras env = (Except.ok ds, tL) ∧
      ds.find? (fun d => d.portName == info.portName) = some found ∧
      cameraOpen env (CameraState.fresh found.cameraRef) = (Except.ok (), cam, tO) ∧
      openAsync env st info =
        (Except.ok (),
         { (startEventLoop st).1 with
             openCameras := mapSet (startEventLoop st).1.openCameras info.portName cam },
         tL ++ tO ++ (startEventLoop st).2 ++ [Call.release env.listRef]) := by
  unfold openAsync at hok ⊢
  simp only [hb, Bool.false_eq_true, if_false] at hok ⊢
  rcases hLC : listCameras env with ⟨res, tL⟩
  rw [hLC] at hok
  cases res with
  | error e => simp at hok
  | ok ds =>
    simp only [] at hok
    rcases hF : ds.find? (fun d => d.portName == info.portName) with _ | found
    · simp [hF] at hok
    · simp only [hF] at hok
      rcases hCO : cameraOpen env (CameraState.fresh found.cameraRef) with ⟨cres, cam, tO⟩
      rw [hCO] at hok
      cases cres with
      | error rc => simp at hok
      | ok u =>
        refine ⟨ds, tL, found, cam, tO, rfl, hF, ?_, ?_⟩
        · rw [hCO]
        · simp [hF, hCO]

theorem openAsync_not_ok_state (env : Env) (st : EdsdkState) (info : CameraInfo)
    (h : (openAsync env st info).1 ≠ Except.ok ()) :
    (openAsync env st info).2.1 = st := by
  by_cases hb : mapHas st.openCameras info.portName
  · rw [openAsync_tracked env st info hb]
  · unfold openAsync at h ⊢
    simp only [hb, Bool.false_eq_true, if_false] at h ⊢
    rcases hLC : listCameras env with ⟨res, tL⟩
    rw [hLC] at h
    cases res with
    | error e => rfl
    | ok ds =>
      simp only [] at h
      rcases hF : ds.find? (fun d => d.portName == info.portName) with _ | found
      · simp [hF]
      · simp only [hF] at h
        rcases hCO : cameraOpen env (CameraState.fresh found.cameraRef) with ⟨cres, cam, tO⟩
        rw [hCO] at h
        cases cres with
        | error rc => simp [hF, hCO]
        | ok u => simp at h

theorem openAsync_ok_tracked (env : Env) (st : EdsdkState) (info : CameraInfo)
    (h : (openAsync env st info).1 = Except.ok ()) :
    mapHas (openAsync env st info).2.1.openCameras info.portName = true := by
  by_cases hb : mapHas st.openCameras info.portName
  · rw [openAsync_tracked env st info hb]
    exact hb
  · obtain ⟨ds, tL, found, cam, tO, hLC, hF, hCO, hEq⟩ :=
      openAsync_ok_decomp env st info (by simpa using hb) h
    rw [hEq]
    simp [mapHas, mapGet_mapSet_self]

/-- Recognises an EdsRetain call in a trace. -/
def isRetainCall : Call → Bool
  | Call.retain _ => true
  | _ => false

/-- Recognises the installation (non-null handler) of the property event
callback. -/
def installsPropertyHandler : Call → Bool
  | Call.setPropertyEventHandler _ _ b => b
  | _ => false

/-- Recognises the installation of the object event callback. -/
def installsObjectHandler : Call → Bool
  | Call.setObjectEventHandler _ _ b => b
  | _ => false

/-- Recognises the installation of the state event callback. -/
def installsStateHandler : Call → Bool
  | Call.setStateEventHandler _ _ b => b
  | _ => false

theorem cameraOpen_trace_of_ok (env : Env) (s : CameraState) (cam : CameraState)
    (tO : List Call) (h : cameraOpen env s = (Except.ok (), cam, tO)) :
    tO = [Call.retain s.cameraRef,
          Call.setPropertyEventHandler s.cameraRef EDS_PROPERTY_EVENT_ALL true,
          Call.setObjectEventHandler s.cameraRef EDS_OBJECT_EVENT_ALL true,
          Call.setStateEventHandler s.cameraRef EDS_STATE_EVENT_ALL true,
          Call.openSession s.cameraRef,
          Call.setPropertyData s.cameraRef EDS_PROP_ID_SAVE_TO EDS_SAVE_TO_HOST,
          Call.setPropertyData s.cameraRef EDS_PROP_ID_DRIVE_MODE EDS_DRIVE_MODE_CONTINUOUS,
          Call.setCapacity s.cameraRef] := by
  by_cases hc : env.code (Call.openSession s.cameraRef) = EDS_ERR_OK
  · have hs := cameraOpen_ok_shape env s hc
    rw [h] at hs
    have := congrArg (fun p => p.2.2) hs
    simpa using this
  · have hs := cameraOpen_err_shape env s hc
    rw [h] at hs
    have := congrArg (fun p => p.1) hs
    simp at this

theorem startEventLoop_trace_countP (st : EdsdkState) (p : Call → Bool)
    (h : p Call.startInterval = false) :
    (startEventLoop st).2.countP p = 0 := by
  by_cases hr : st.eventLoopRunning <;> simp [startEventLoop, hr, List.countP_cons, h]

/-- C2: opening a camera whose portName is already tracked is a complete
no-op (success, unchanged state, no binding calls); consequently, after a
successful open a second open of the same identity performs no binding
calls, and the two calls together perform exactly one retain and exactly
one installation of each of the three event callbacks. -/
theorem openAsync_idempotent :
    (∀ (env : Env) (st : EdsdkState) (info : CameraInfo),
      mapHas st.openCameras info.portName = true →
      openAsync env st info = (Except.ok (), st, [])) ∧
    (∀ (env : Env) (st : EdsdkState) (info : CameraInfo),
      (openAsync env st info).1 = Except.ok () →
      openAsync env (openAsync env st info).2.1 info =
        (Except.ok (), (openAsync env st info).2.1, [])) ∧
    (∀ (env : Env) (st : EdsdkState) (info : CameraInfo),
      mapHas st.openCameras info.portName = false →
      (openAsync env st info).1 = Except.ok () →
      (((openAsync env st info).2.2 ++
          (openAsync env (openAsync env st info).2.1 info).2.2).countP isRetainCall = 1 ∧
       ((openAsync env st info).2.2 ++
          (openAsync env (openAsync env st info).2.1 info).2.2).countP installsPropertyHandler = 1 ∧
       ((openAsync env st info).2.2 ++
          (openAsync env (openAsync env st info).2.1 info).2.2).countP installsObjectHandler = 1 ∧
       ((openAsync env st info).2.2 ++
          (openAsync env (openAsync env st info).2.1 info).2.2).countP installsStateHandler = 1)) := by
  refine ⟨?_, ?_, ?_⟩
  · intro env st info h
    exact openAsync_tracked env st info h
  · intro env st info h
    exact openAsync_tracked env _ info (openAsync_ok_tracked env st info h)
  · intro env st info hb hok
    have hsecond := openAsync_tracked env _ info (openAsync_ok_tracked env st info hok)
    have ht2 : (openAsync env (openAsync env st info).2.1 info).2.2 = [] := by
      rw [hsecond]
    obtain ⟨ds, tL, found, cam, tO, hLC, hF, hCO, hEq⟩ :=
      openAsync_ok_decomp env st info hb hok
    have htO := cameraOpen_trace_of_ok env _ cam tO hCO
    have ht1 : (openAsync env st info).2.2 =
        tL ++ tO ++ (startEventLoop st).2 ++ [Call.release env.listRef] := by
      rw [hEq]
    have hL1 : tL.countP isRetainCall = 0 := by
      have := listCameras_countP env isRetainCall rfl rfl (fun i => rfl) (fun i => rfl)
      rw [hLC] at this
      simpa using this
    have hL2 : tL.countP installsPropertyHandler = 0 := by
      have := listCameras_countP env installsPropertyHandler rfl rfl (fun i => rfl) (fun i => rfl)
      rw [hLC] at this
      simpa using this
    have hL3 : tL.countP installsObjectHandler = 0 := by
      have := listCameras_countP env installsObjectHandler rfl rfl (fun i => rfl) (fun i => rfl)
      rw [hLC] at this
      simpa using this
    have hL4 : tL.countP installsStateHandler = 0 := by
      have := listCameras_countP env installsStateHandler rfl rfl (fun i => rfl) (fun i => rfl)
      rw [hLC] at this
      simpa using this
    have hS1 := startEventLoop_trace_countP st isRetainCall rfl
    have hS2 := startEventLoop_trace_countP st installsPropertyHandler rfl
    have hS3 := startEventLoop_trace_countP st installsObjectHandler rfl
    have hS4 := startEventLoop_trace_countP st installsStateHandler rfl
    rw [ht1, ht2, htO]
    refine ⟨?_, ?_, ?_, ?_⟩ <;>
      simp [List.countP_append, List.countP_cons, hL1, hL2, hL3, hL4, hS1, hS2, hS3, hS4,
        isRetainCall, installsPropertyHandler, installsObjectHandler, installsStateHandler]

/-- Witness for openAsync_idempotent: a fresh manager in the all-success
environment opens camera usb:001; the second open is a no-op and the pair
of calls performs exactly one retain. -/
theorem openAsync_idempotent_witness :
    (openAsync okEnv (openAsync okEnv EdsdkState.init info0).2.1 info0 =
      (Except.ok (), (openAsync okEnv EdsdkState.init info0).2.1, [])) ∧
    ((openAsync okEnv EdsdkState.init info0).2.2 ++
       (openAsync okEnv (openAsync okEnv EdsdkState.init info0).2.1 info0).2.2).countP
      isRetainCall = 1 :=
  ⟨openAsync_idempotent.2.1 okEnv EdsdkState.init info0 rfl,
   (openAsync_idempotent.2.2 okEnv EdsdkState.init info0 rfl rfl).1⟩

theorem openAsync_state_cases (env : Env) (st : EdsdkState) (info : CameraInfo) :
    (openAsync env st info).2.1 = st ∨
    ((openAsync env st info).2.1.eventLoopRunning = true ∧
     (openAsync env st info).2.1.openCameras ≠ []) := by
  by_cases hok : (openAsync env st info).1 = Except.ok ()
  · by_cases hb : mapHas st.openCameras info.portName
    · left
      rw [openAsync_tracked env st info hb]
    · obtain ⟨ds, tL, found, cam, tO, hLC, hF, hCO, hEq⟩ :=
        openAsync_ok_decomp env st info (by simpa using hb) hok
      right
      rw [hEq]
      exact ⟨by simpa using startEventLoop_running st, by simp [mapSet_ne_nil]⟩
  · left
    exact openAsync_not_ok_state env st info hok

theorem closeAsync_state_cases (st : EdsdkState) (info : CameraInfo) :
    (closeAsync st info).2.1 = st ∨
    (st.openCameras ≠ [] ∧
     (closeAsync st info).2.1.openCameras = mapDelete st.openCameras info.portName ∧
     ((mapDelete st.openCameras info.portName = [] ∧
       (closeAsync st info).2.1.eventLoopRunning = false) ∨
      (mapDelete st.openCameras info.portName ≠ [] ∧
       (closeAsync st info).2.1.eventLoopRunning = st.eventLoopRunning))) := by
  rcases hG : mapGet st.openCameras info.portName with _ | cam
  · left
    simp [closeAsync, hG]
  · right
    refine ⟨mapGet_ne_nil hG, ?_, ?_⟩
    · by_cases he : (mapDelete st.openCameras info.portName).isEmpty
      · simp [closeAsync, hG, he, stopEventLoop_cameras]
      · simp [closeAsync, hG, he]
    · by_cases he : (mapDelete st.openCameras info.portName).isEmpty
      · left
        exact ⟨List.isEmpty_iff.mp he,
          by simp [closeAsync, hG, he, stopEventLoop_running]⟩
      · right
        refine ⟨?_, by simp [closeAsync, hG, he]⟩
        intro hnil
        rw [hnil] at he
        simp at he

theorem edsdkTerminate_state (st : EdsdkState) :
    (edsdkTerminate st).1 = { openCameras := [], eventLoopRunning := false } := by
  unfold edsdkTerminate
  by_cases h : st.eventLoopRunning <;> simp [stopEventLoop, h]

/-- Recognises the creation of a polling interval in a trace. -/
def isStartIntervalCall : Call → Bool
  | Call.startInterval => true
  | _ => false

theorem openAsync_no_new_interval (env : Env) (st : EdsdkState) (info : CameraInfo)
    (h : st.eventLoopRunning = true) :
    (openAsync env st info).2.2.countP isStartIntervalCall = 0 := by
  by_cases hb : mapHas st.openCameras info.portName
  · rw [openAsync_tracked env st info hb]
    rfl
  · have hL : (listCameras env).2.countP isStartIntervalCall = 0 :=
      listCameras_countP env _ rfl rfl (fun i => rfl) (fun i => rfl)
    unfold openAsync
    simp only [hb, Bool.false_eq_true, if_false]
    rcases hLC : listCameras env with ⟨res, tL⟩
    rw [hLC] at hL
    cases res with
    | error e => simpa using hL
    | ok ds =>
      rcases hF : ds.find? (fun d => d.portName == info.portName) with _ | found
      · simp only [hF]
        simpa using hL
      · by_cases hc : env.code (Call.openSession (CameraState.fresh found.cameraRef).cameraRef) = EDS_ERR_OK
        · simp [hF, cameraOpen_ok_shape env _ hc, startEventLoop, h,
            List.countP_append, List.countP_cons, isStartIntervalCall]
          simpa using hL
        · simp [hF, cameraOpen_err_shape env _ hc,
            List.countP_append, List.countP_cons, isStartIntervalCall]
          simpa using hL

/-- C3: in every reachable state of the session manager, the polling
interval exists iff at least one session is tracked; moreover, opening a
camera while the interval is already live never creates a second
interval.  Opening the first camera makes the interval live (first
conjunct applied to the post-open state), closing while another camera
remains tracked keeps it live, and closing the last camera removes it. -/
theorem eventLoop_running_iff_sessions :
    (∀ st, Reachable st → (st.eventLoopRunning = true ↔ st.openCameras ≠ [])) ∧
    (∀ (env : Env) (st : EdsdkState) (info : CameraInfo),
      st.eventLoopRunning = true →
      (openAsync env st info).2.2.countP isStartIntervalCall = 0) := by
  constructor
  · intro st h
    induction h with
    | init => simp [EdsdkState.init]
    | openStep env info hst ih =>
      rcases openAsync_state_cases env _ info with hsame | ⟨hrun, hne⟩
      · rw [hsame]
        exact ih
      · rw [hrun]
        simp [hne]
    | closeStep info hst ih =>
      rcases closeAsync_state_cases _ info with hsame | ⟨hne, hmap, hcase⟩
      · rw [hsame]
        exact ih
      · rcases hcase with ⟨hdel, hrun⟩ | ⟨hdel, hrun⟩
        · rw [hrun, hmap, hdel]
          simp
        · rw [hrun, hmap, ih.mpr hne]
          simp [hdel]
    | termStep hst ih =>
      rw [edsdkTerminate_state]
      simp
  · intro env st info h
    exact openAsync_no_new_interval env st info h

/-- Witness for eventLoop_running_iff_sessions: the state reached by one
successful open from a fresh manager satisfies the iff, and a second open
in that running state creates no interval. -/
theorem eventLoop_running_iff_sessions_witness :
    ((openAsync okEnv EdsdkState.init info0).2.1.eventLoopRunning = true ↔
      (openAsync okEnv EdsdkState.init info0).2.1.openCameras ≠ []) ∧
    (openAsync okEnv (openAsync okEnv EdsdkState.init info0).2.1 info0).2.2.countP
      isStartIntervalCall = 0 :=
  ⟨eventLoop_running_iff_sessions.1 _ (Reachable.openStep okEnv info0 Reachable.init),
   eventLoop_running_iff_sessions.2 okEnv (openAsync okEnv EdsdkState.init info0).2.1 info0 rfl⟩

theorem cameraClose_no_teardown (s : CameraState) :
    Call.terminateSDK ∉ (cameraClose s).2 := by
  by_cases h : s.opened <;> simp [cameraClose, h]

theorem cameraClose_calls_of_opened (s : CameraState) (h : s.opened = true) :
    Call.closeSession s.cameraRef ∈ (cameraClose s).2 ∧
    Call.release s.cameraRef ∈ (cameraClose s).2 := by
  simp [cameraClose, h]

/-- A manager state with one tracked, opened session on camera ref 3 and
a live polling interval. -/
def st9 : EdsdkState :=
  { openCameras := [("usb:001", { CameraState.fresh 3 with opened := true })],
    eventLoopRunning := true }

/-- C9 (counterexample): from a state with a tracked session, terminate()
closes the session and stops the loop but performs no global SDK teardown
call: EdsTerminateSDK is nowhere in its trace. -/
theorem terminate_missing_global_teardown :
    st9.openCameras ≠ [] ∧
    Call.terminateSDK ∉ (edsdkTerminate st9).2 := by
  refine ⟨by simp [st9], by decide⟩

/-- C9 (amended): EdsdkModule.terminate closes every tracked session
(unconditionally, for every environment and every per-session outcome,
since the close sequence cannot throw), empties the session map and stops
the polling loop, but does not perform the global SDK teardown call; that
call is made by the separate loader-level _terminate, which stops its loop
and calls EdsTerminateSDK without touching any session. -/
theorem terminate_closes_all_stops_loop_no_teardown :
    (∀ st : EdsdkState,
      (edsdkTerminate st).1 = { openCameras := [], eventLoopRunning := false } ∧
      Call.terminateSDK ∉ (edsdkTerminate st).2 ∧
      (∀ p ∈ st.openCameras, p.2.opened = true →
        Call.closeSession p.2.cameraRef ∈ (edsdkTerminate st).2 ∧
        Call.release p.2.cameraRef ∈ (edsdkTerminate st).2)) ∧
    (∀ st : EdsdkState,
      (indexTerminate st).1.openCameras = st.openCameras ∧
      (indexTerminate st).1.eventLoopRunning = false ∧
      Call.terminateSDK ∈ (indexTerminate st).2) := by
  constructor
  · intro st
    refine ⟨edsdkTerminate_state st, ?_, ?_⟩
    · intro hmem
      unfold edsdkTerminate at hmem
      simp only [List.mem_append, List.mem_flatten, List.mem_map] at hmem
      rcases hmem with ⟨l, ⟨p, hp, hl⟩, hc⟩ | hstop
      · rw [← hl] at hc
        exact cameraClose_no_teardown p.2 hc
      · by_cases hr : st.eventLoopRunning = true
        · simp [stopEventLoop, hr] at hstop
        · simp [stopEventLoop, hr] at hstop
    · intro p hp ho
      have hcc := cameraClose_calls_of_opened p.2 ho
      have hsub : ∀ c ∈ (cameraClose p.2).2, c ∈ (edsdkTerminate st).2 := by
        intro c hc
        unfold edsdkTerminate
        simp only [List.mem_append, List.mem_flatten, List.mem_map]
        exact Or.inl ⟨(cameraClose p.2).2, ⟨p, hp, rfl⟩, hc⟩
      exact ⟨hsub _ hcc.1, hsub _ hcc.2⟩
  · intro st
    unfold indexTerminate
    refine ⟨stopEventLoop_cameras st, stopEventLoop_running st, ?_⟩
    simp

/-- Witness for terminate_closes_all_stops_loop_no_teardown at the state
with one tracked opened session on camera ref 3. -/
theorem terminate_closes_all_stops_loop_no_teardown_witness :
    (edsdkTerminate st9).1 = { openCameras := [], eventLoopRunning := false } ∧
    Call.closeSession 3 ∈ (edsdkTerminate st9).2 ∧
    Call.release 3 ∈ (edsdkTerminate st9).2 ∧
    Call.terminateSDK ∈ (indexTerminate st9).2 :=
  ⟨(terminate_closes_all_stops_loop_no_teardown.1 st9).1,
   ((terminate_closes_all_stops_loop_no_teardown.1 st9).2.2
      ("usb:001", { CameraState.fresh 3 with opened := true }) (by simp [st9]) rfl).1,
   ((terminate_closes_all_stops_loop_no_teardown.1 st9).2.2
      ("usb:001", { CameraState.fresh 3 with opened := true }) (by simp [st9]) rfl).2,
   (terminate_closes_all_stops_loop_no_teardown.2 st9).2.2⟩
